import Mathlib

/-!
Verification of the UPlanet Vitrine gesture-carousel client.

Shallow embedding of the gesture-to-action state machine of
`src/static/shop_carousel.js` and its richer duplicate variant
`src/unnamed/part_001` (the two files share the same action, overlay and
navigation logic verbatim; `part_001` additionally computes the effective
light mode from hand presence).

The embedding covers:
* `navigateTo` / `navigateLeft` / `navigateRight` (navigation and the
  position-sync request to `/api/set_index`);
* `handleGesture` (edge-triggered command dispatch on `gesture.action`
  against the stored `lastAction`, the fist override, and the overlay
  guards), with `capturePhoto`/`showQR`/`hideQR` effects on the flags;
* `updateThemeMode` (the `part_001` variant that computes
  `effectiveLightMode` from `hand_detected`, `time_until_dark` and the
  server hint `light_mode`);
* a timer-level model of the QR countdown (`setInterval`/`clearInterval`
  ids) for the auto-dismiss behaviour of `showQR`/`hideQR`;
* an event-level model of the dual transport (WebSocket push vs. the
  `startPollingFallback` loop), logging the value of `state.useWebSocket`
  at the moment each poll request is issued and at the moment each poll
  response is handed to `handleGesture`.

JS numbers that only ever hold small integers (`currentIndex`,
`qrCountdown`) are embedded as `Int`; `events.length` as `Nat`;
`time_until_dark` (a float compared against `0`) as `Rat`.  The sentinel
initial value `lastAction = 'idle'`, a string distinct from every action
string, is embedded as `Option.none` in `Option Action`.
-/

namespace Vitrine

/-- The `action` field of a gesture frame:
`enum{none, nav_left, nav_right, detail, detail_close, capture}`. -/
inductive Action where
  | none
  | nav_left
  | nav_right
  | detail
  | detail_close
  | capture
deriving DecidableEq, Repr

/-- The fields of a gesture frame (`/api/gesture` JSON) that the modelled
state machine reads.  `captureOk` stands for the `success` flag of the
external `/api/capture` endpoint's response, consumed only when this frame
triggers a capture. -/
structure Frame where
  action : Action
  isFist : Bool
  handDetected : Bool
  lightModeHint : Bool
  timeUntilDark : Rat
  captureOk : Bool
deriving DecidableEq, Repr

/-- Constant `CONFIG.QR_DISPLAY_TIME` (seconds). -/
def QR_DISPLAY_TIME : Int := 10

/-- The mutable client `state` fields the modelled logic reads and writes.
`syncLog` records, most recent first, every index POSTed to the
position-sync endpoint `/api/set_index` by `navigateTo`. -/
structure St where
  currentIndex : Int
  itemCount : Nat
  showDetail : Bool
  showQR : Bool
  qrCountdown : Int
  lastAction : Option Action
  lightMode : Bool
  timeUntilDark : Rat
  syncLog : List Int
deriving DecidableEq, Repr

/-- Function `navigateTo(index)`: clamp into `[0, events.length - 1]`
(`Math.max(0, Math.min(index, maxIndex))`), store, and always POST the new
index to `/api/set_index`. -/
def navigateTo (i : Int) (s : St) : St :=
  let maxIndex : Int := (s.itemCount : Int) - 1
  let idx := max 0 (min i maxIndex)
  { s with currentIndex := idx, syncLog := idx :: s.syncLog }

/-- Function `navigateLeft()`: only if `currentIndex > 0`. -/
def navigateLeft (s : St) : St :=
  if 0 < s.currentIndex then navigateTo (s.currentIndex - 1) s else s

/-- Function `navigateRight()`: only if `currentIndex < events.length - 1`. -/
def navigateRight (s : St) : St :=
  if s.currentIndex < (s.itemCount : Int) - 1 then navigateTo (s.currentIndex + 1) s else s

/-- Function `showDetail(event)`: sets `state.showDetail = true` (the DOM work is
view-layer; the caller has already checked the event exists). -/
def showDetailOp (s : St) : St :=
  { s with showDetail := true }

/-- Function `hideDetail()`: `if (!state.showDetail) return; state.showDetail = false`. -/
def hideDetail (s : St) : St :=
  if s.showDetail then { s with showDetail := false } else s

/-- State effect of `showQR(...)` on the flags: `showQR := true`,
`qrCountdown := CONFIG.QR_DISPLAY_TIME` (the countdown timer itself is
modelled separately, in `QrSt`). -/
def showQRop (s : St) : St :=
  { s with showQR := true, qrCountdown := QR_DISPLAY_TIME }

/-- State effect of `hideQR()` on the flags. -/
def hideQRop (s : St) : St :=
  { s with showQR := false }

/-- Function `capturePhoto()`: guarded by `if (state.showQR) return;`; on a
successful `/api/capture` response it calls `showQR(...)`. -/
def capturePhoto (ok : Bool) (s : St) : St :=
  if s.showQR then s else if ok then showQRop s else s

/-- JS truthiness of `state.events[state.currentIndex]`: an element exists
iff the index is in bounds. -/
def eventAtCurrent (s : St) : Bool :=
  decide (0 ≤ s.currentIndex) && decide (s.currentIndex < (s.itemCount : Int))

/-- The `switch (gesture.action)` body of `handleGesture`, entered when the
edge test fired (after `lastAction` was updated). -/
def dispatchCommand (s : St) (f : Frame) : St :=
  match f.action with
  | Action.nav_left =>
      -- Inverted: nav_left action → navigate RIGHT
      if !s.showDetail && !s.showQR then navigateRight s else s
  | Action.nav_right =>
      -- Inverted: nav_right action → navigate LEFT
      if !s.showDetail && !s.showQR then navigateLeft s else s
  | Action.detail =>
      if !s.showQR && eventAtCurrent s then showDetailOp s else s
  | Action.detail_close => hideDetail s
  | Action.capture =>
      if !s.showQR then capturePhoto f.captureOk s else s
  | Action.none => s

/-- Function `updateThemeMode(lightMode, timeUntilDark, handDetected)` as in
`src/unnamed/part_001`:
`effectiveLightMode = handDetected ? true : (timeUntilDark > 0 ? lightMode : false)`,
stored into `state.lightMode` on change, and `state.timeUntilDark` stored
verbatim. -/
def updateThemeMode (lightMode : Bool) (timeUntilDark : Rat) (handDetected : Bool)
    (s : St) : St :=
  let effectiveLightMode : Bool :=
    if handDetected then true else if 0 < timeUntilDark then lightMode else false
  let s :=
    if effectiveLightMode ≠ s.lightMode then { s with lightMode := effectiveLightMode } else s
  { s with timeUntilDark := timeUntilDark }

/-- Function `handleGesture(gesture)`: theme update, then the edge-triggered command
dispatch (`if (gesture.action !== state.lastAction)`), then the fist
override (`if (gesture.is_fist && state.showDetail) hideDetail()`).
The second component records the command dispatched by the `switch`
(`Option.none` when no non-`none` case fired). -/
def handleGesture (s : St) (f : Frame) : St × Option Action :=
  let s1 := updateThemeMode f.lightModeHint f.timeUntilDark f.handDetected s
  let s2 :=
    if some f.action ≠ s1.lastAction then
      dispatchCommand { s1 with lastAction := some f.action } f
    else s1
  let cmd : Option Action :=
    if some f.action ≠ s1.lastAction then
      if f.action = Action.none then Option.none else some f.action
    else Option.none
  let s3 := if f.isFist && s2.showDetail then hideDetail s2 else s2
  (s3, cmd)

/-- Process a list of frames in delivery order. -/
def runFrames (s : St) : List Frame → St
  | [] => s
  | f :: fs => runFrames (handleGesture s f).1 fs

/-- The per-frame dispatch trace of a run. -/
def dispatchTrace (s : St) : List Frame → List (Option Action)
  | [] => []
  | f :: fs => (handleGesture s f).2 :: dispatchTrace (handleGesture s f).1 fs

/-- Session-start state (fresh `state` object after events loaded),
parameterised by the number of loaded events. -/
def initSt (n : Nat) : St :=
  { currentIndex := 0
    itemCount := n
    showDetail := false
    showQR := false
    qrCountdown := 0
    lastAction := Option.none
    lightMode := false
    timeUntilDark := 0
    syncLog := [] }


/-- A navigation operation: a dot/keyboard jump (`navigateTo`), or a
single-step `navigateLeft`/`navigateRight`. -/
inductive NavOp where
  | goto (i : Int)
  | left
  | right
deriving DecidableEq, Repr

/-- Apply one navigation operation. -/
def applyNavOp (s : St) : NavOp → St
  | NavOp.goto i => navigateTo i s
  | NavOp.left => navigateLeft s
  | NavOp.right => navigateRight s

/-- Apply a sequence of navigation operations. -/
def applyNavOps (s : St) (ops : List NavOp) : St :=
  ops.foldl applyNavOp s

/-- State of the QR overlay together with its `setInterval` countdown
timer.  `qrInterval` is the timer id stored in `state.qrInterval`
(`Option.none` models JS `null`); `activeTimers` is the set of interval
timers currently registered with the browser runtime (a timer fires only
while registered; `clearInterval` deregisters it); `nextId` generates
fresh timer ids. -/
structure QrSt where
  showQR : Bool
  qrCountdown : Int
  qrInterval : Option Nat
  activeTimers : List Nat
  nextId : Nat
deriving DecidableEq, Repr

/-- Timer-level effect of `showQR(...)`: set the flag and
`qrCountdown = CONFIG.QR_DISPLAY_TIME`, then
`if (state.qrInterval) clearInterval(state.qrInterval)`, then register a
fresh interval timer and store its id. -/
def qrShow (s : QrSt) : QrSt :=
  let s1 : QrSt := { s with showQR := true, qrCountdown := QR_DISPLAY_TIME }
  let s2 : QrSt :=
    match s1.qrInterval with
    | some i => { s1 with activeTimers := s1.activeTimers.erase i }
    | Option.none => s1
  { s2 with qrInterval := some s2.nextId,
            activeTimers := s2.nextId :: s2.activeTimers,
            nextId := s2.nextId + 1 }

/-- Timer-level effect of `hideQR()`: clear the flag, and
`if (state.qrInterval) { clearInterval(state.qrInterval); state.qrInterval = null }`. -/
def qrHide (s : QrSt) : QrSt :=
  let s1 : QrSt := { s with showQR := false }
  match s1.qrInterval with
  | some i => { s1 with activeTimers := s1.activeTimers.erase i, qrInterval := Option.none }
  | Option.none => s1

/-- One firing of the interval callback registered by `showQR`: it runs
only while its timer id is still registered; it decrements `qrCountdown`
and calls `hideQR()` when the countdown reaches `0`. -/
def qrTick (i : Nat) (s : QrSt) : QrSt :=
  if i ∈ s.activeTimers then
    let s1 : QrSt := { s with qrCountdown := s.qrCountdown - 1 }
    if s1.qrCountdown ≤ 0 then qrHide s1 else s1
  else s

/-- An event touching the QR overlay: a capture-driven `showQR`, a manual
`hideQR` (overlay click or Escape key), or the firing of the interval
timer with a given id. -/
inductive QrOp where
  | showQR
  | hideQR
  | tick (i : Nat)
deriving DecidableEq, Repr

/-- Apply one QR event. -/
def applyQrOp (s : QrSt) : QrOp → QrSt
  | QrOp.showQR => qrShow s
  | QrOp.hideQR => qrHide s
  | QrOp.tick i => qrTick i s

/-- Run a sequence of QR events. -/
def qrRun (s : QrSt) (ops : List QrOp) : QrSt :=
  ops.foldl applyQrOp s

/-- Initial QR state: overlay hidden, no timer registered. -/
def qrInit : QrSt :=
  { showQR := false, qrCountdown := 0, qrInterval := Option.none,
    activeTimers := [], nextId := 0 }

/-- State of the dual-transport layer.  `tickPending` counts
`setTimeout(poll, POLL_INTERVAL)` callbacks not yet fired; `inflight`
counts `/api/gesture` requests awaiting a response; `reqLog` records (most
recent first) the value of `state.useWebSocket` at the moment each poll
request was issued; `delLog` records the value of `state.useWebSocket` at
the moment each poll response was delivered to `handleGesture`. -/
structure TpSt where
  useWebSocket : Bool
  tickPending : Nat
  inflight : Nat
  reqLog : List Bool
  delLog : List Bool
deriving DecidableEq, Repr

/-- The synchronous prefix of the inner `poll()` function of
`startPollingFallback`: `if (state.useWebSocket) return;` and otherwise
issue the `fetch` of `/api/gesture`. -/
def pollBody (s : TpSt) : TpSt :=
  if s.useWebSocket then s
  else { s with inflight := s.inflight + 1, reqLog := s.useWebSocket :: s.reqLog }

/-- Function `startPollingFallback()`:
`if (state.useWebSocket) return;` then call `poll()` immediately. -/
def startPollingFallback (s : TpSt) : TpSt :=
  if s.useWebSocket then s else pollBody s

/-- An event of the transport layer, in event-loop order:
`connect` is the socket `connect` handler (`state.useWebSocket = true`);
`disconnect` is the `disconnect`/`connect_error` handler
(`state.useWebSocket = false; startPollingFallback()`);
`tickFire` is the firing of a pending `setTimeout(poll, POLL_INTERVAL)`;
`respond ok` is the completion of an in-flight `/api/gesture` request —
on success the frame is passed to `handleGesture`, on failure only the
status text changes, and in both cases the next tick is scheduled only
`if (!state.useWebSocket)`. -/
inductive TpEv where
  | connect
  | disconnect
  | tickFire
  | respond (ok : Bool)
deriving DecidableEq, Repr

/-- Apply one transport event. -/
def tpStep (s : TpSt) : TpEv → TpSt
  | TpEv.connect => { s with useWebSocket := true }
  | TpEv.disconnect => startPollingFallback { s with useWebSocket := false }
  | TpEv.tickFire =>
      if 0 < s.tickPending then pollBody { s with tickPending := s.tickPending - 1 } else s
  | TpEv.respond ok =>
      if 0 < s.inflight then
        let s1 : TpSt := { s with inflight := s.inflight - 1 }
        let s2 : TpSt := if ok then { s1 with delLog := s1.useWebSocket :: s1.delLog } else s1
        if !s2.useWebSocket then { s2 with tickPending := s2.tickPending + 1 } else s2
      else s

/-- Run a sequence of transport events. -/
def tpRun (s : TpSt) (evs : List TpEv) : TpSt :=
  evs.foldl tpStep s

/-- Initial transport state (before any handshake: push inactive, no poll
loop started). -/
def tpInit : TpSt :=
  { useWebSocket := false, tickPending := 0, inflight := 0, reqLog := [], delLog := [] }

/-- A frame with `action = none` and every other field inactive. -/
def fNone : Frame :=
  { action := Action.none, isFist := false, handDetected := false,
    lightModeHint := false, timeUntilDark := 0, captureOk := true }

/-- A frame carrying the `nav_left` action. -/
def fNavLeft : Frame := { fNone with action := Action.nav_left }

/-- A frame carrying the `detail` action. -/
def fDetail : Frame := { fNone with action := Action.detail }

/-- A frame carrying the `capture` action (capture endpoint succeeds). -/
def fCapture : Frame := { fNone with action := Action.capture }

/-- A fist frame with `action = none` (no edge on `action`). -/
def fFist : Frame := { fNone with isFist := true }

/-! ### Field-preservation and characterisation lemmas -/

lemma updateThemeMode_lastAction (l : Bool) (t : Rat) (h : Bool) (s : St) :
    (updateThemeMode l t h s).lastAction = s.lastAction := by
  unfold updateThemeMode; dsimp only; (repeat' split) <;> rfl

lemma updateThemeMode_showDetail (l : Bool) (t : Rat) (h : Bool) (s : St) :
    (updateThemeMode l t h s).showDetail = s.showDetail := by
  unfold updateThemeMode; dsimp only; (repeat' split) <;> rfl

lemma updateThemeMode_showQR (l : Bool) (t : Rat) (h : Bool) (s : St) :
    (updateThemeMode l t h s).showQR = s.showQR := by
  unfold updateThemeMode; dsimp only; (repeat' split) <;> rfl

lemma updateThemeMode_currentIndex (l : Bool) (t : Rat) (h : Bool) (s : St) :
    (updateThemeMode l t h s).currentIndex = s.currentIndex := by
  unfold updateThemeMode; dsimp only; (repeat' split) <;> rfl

lemma updateThemeMode_itemCount (l : Bool) (t : Rat) (h : Bool) (s : St) :
    (updateThemeMode l t h s).itemCount = s.itemCount := by
  unfold updateThemeMode; dsimp only; (repeat' split) <;> rfl

lemma updateThemeMode_syncLog (l : Bool) (t : Rat) (h : Bool) (s : St) :
    (updateThemeMode l t h s).syncLog = s.syncLog := by
  unfold updateThemeMode; dsimp only; (repeat' split) <;> rfl

lemma updateThemeMode_lightMode (l : Bool) (t : Rat) (h : Bool) (s : St) :
    (updateThemeMode l t h s).lightMode =
      (if h then true else if 0 < t then l else false) := by
  unfold updateThemeMode; dsimp only
  (repeat' split) <;> simp_all

lemma hideDetail_lastAction (s : St) : (hideDetail s).lastAction = s.lastAction := by
  unfold hideDetail; split <;> rfl

lemma hideDetail_lightMode (s : St) : (hideDetail s).lightMode = s.lightMode := by
  unfold hideDetail; split <;> rfl

lemma hideDetail_currentIndex (s : St) : (hideDetail s).currentIndex = s.currentIndex := by
  unfold hideDetail; split <;> rfl

lemma hideDetail_showQR (s : St) : (hideDetail s).showQR = s.showQR := by
  unfold hideDetail; split <;> rfl

lemma hideDetail_syncLog (s : St) : (hideDetail s).syncLog = s.syncLog := by
  unfold hideDetail; split <;> rfl

lemma hideDetail_itemCount (s : St) : (hideDetail s).itemCount = s.itemCount := by
  unfold hideDetail; split <;> rfl

lemma hideDetail_showDetail (s : St) : (hideDetail s).showDetail = false ∨ hideDetail s = s := by
  unfold hideDetail; split
  · exact Or.inl rfl
  · exact Or.inr rfl

lemma dispatchCommand_lastAction (s : St) (f : Frame) :
    (dispatchCommand s f).lastAction = s.lastAction := by
  unfold dispatchCommand
  cases f.action <;>
    simp only [navigateRight, navigateLeft, navigateTo, hideDetail, capturePhoto,
      showQRop, showDetailOp] <;>
    (repeat' split) <;> rfl

lemma dispatchCommand_lightMode (s : St) (f : Frame) :
    (dispatchCommand s f).lightMode = s.lightMode := by
  unfold dispatchCommand
  cases f.action <;>
    simp only [navigateRight, navigateLeft, navigateTo, hideDetail, capturePhoto,
      showQRop, showDetailOp] <;>
    (repeat' split) <;> rfl

lemma dispatchCommand_itemCount (s : St) (f : Frame) :
    (dispatchCommand s f).itemCount = s.itemCount := by
  unfold dispatchCommand
  cases f.action <;>
    simp only [navigateRight, navigateLeft, navigateTo, hideDetail, capturePhoto,
      showQRop, showDetailOp] <;>
    (repeat' split) <;> rfl

lemma handleGesture_fst (s : St) (f : Frame) :
    (handleGesture s f).1 =
      (let s1 := updateThemeMode f.lightModeHint f.timeUntilDark f.handDetected s
       let s2 :=
         if some f.action ≠ s1.lastAction then
           dispatchCommand { s1 with lastAction := some f.action } f
         else s1
       if f.isFist && s2.showDetail then hideDetail s2 else s2) := rfl

lemma handleGesture_snd (s : St) (f : Frame) :
    (handleGesture s f).2 =
      (if some f.action = s.lastAction then Option.none
       else if f.action = Action.none then Option.none else some f.action) := by
  unfold handleGesture
  dsimp only
  rw [updateThemeMode_lastAction]
  by_cases he : some f.action = s.lastAction
  · simp [he]
  · simp [he]

lemma handleGesture_lastAction (s : St) (f : Frame) :
    ((handleGesture s f).1).lastAction = some f.action := by
  rw [handleGesture_fst]
  dsimp only
  by_cases he : some f.action ≠ (updateThemeMode f.lightModeHint f.timeUntilDark f.handDetected s).lastAction
  · rw [if_pos he]
    split
    · rw [hideDetail_lastAction, dispatchCommand_lastAction]
    · rw [dispatchCommand_lastAction]
  · rw [if_neg he]
    simp only [ne_eq, not_not] at he
    split
    · rw [hideDetail_lastAction]
      exact he.symm
    · exact he.symm

lemma handleGesture_lightMode (s : St) (f : Frame) :
    ((handleGesture s f).1).lightMode =
      (if f.handDetected then true else if 0 < f.timeUntilDark then f.lightModeHint else false) := by
  rw [handleGesture_fst]
  dsimp only
  split
  · rename_i h2
    split
    · rw [hideDetail_lightMode, dispatchCommand_lightMode]
      exact updateThemeMode_lightMode _ _ _ _
    · rw [dispatchCommand_lightMode]
      exact updateThemeMode_lightMode _ _ _ _
  · split
    · rw [hideDetail_lightMode]
      exact updateThemeMode_lightMode _ _ _ _
    · exact updateThemeMode_lightMode _ _ _ _

/-! ### Sequencing lemmas -/

lemma runFrames_append (s : St) (l1 l2 : List Frame) :
    runFrames s (l1 ++ l2) = runFrames (runFrames s l1) l2 := by
  induction l1 generalizing s with
  | nil => rfl
  | cons f fs ih => simpa [runFrames] using ih (handleGesture s f).1

lemma runFrames_last_lastAction (s : St) (pre : List Frame) (f : Frame) :
    (runFrames s (pre ++ [f])).lastAction = some f.action := by
  rw [runFrames_append]
  exact handleGesture_lastAction _ f

/-- C1.  For every frame sequence, the command dispatched by `handleGesture`
on a frame `g` that follows a frame `f` is non-`none` only when `g.action`
differs from `f.action` (the stored `lastAction` after processing `f` is
exactly `some f.action`); on a repeated value (including repeated `none`)
nothing is dispatched, and on a change the stored `lastAction` becomes
`some g.action` and exactly the command corresponding to the new value is
dispatched (`none` dispatches no command). -/
theorem c1_edge_triggered_dispatch (s0 : St) (pre : List Frame) (f g : Frame) :
    (runFrames s0 (pre ++ [f])).lastAction = some f.action ∧
    (g.action = f.action →
      (handleGesture (runFrames s0 (pre ++ [f])) g).2 = Option.none) ∧
    ((handleGesture (runFrames s0 (pre ++ [f])) g).2 ≠ Option.none →
      g.action ≠ f.action) ∧
    ((handleGesture (runFrames s0 (pre ++ [f])) g).1.lastAction = some g.action) ∧
    (g.action ≠ f.action →
      (handleGesture (runFrames s0 (pre ++ [f])) g).2 =
        (if g.action = Action.none then Option.none else some g.action)) := by
  have hl := runFrames_last_lastAction s0 pre f
  refine ⟨hl, ?_, ?_, handleGesture_lastAction _ _, ?_⟩
  · intro h
    rw [handleGesture_snd, hl]
    simp [h]
  · intro hne
    rcases eq_or_ne g.action f.action with h | h
    · exfalso
      apply hne
      rw [handleGesture_snd, hl]
      simp [h]
    · exact h
  · intro h
    rw [handleGesture_snd, hl]
    simp [h]

/-- Witness for C1: starting from a fresh session with five items, the
frame sequence `none, nav_left` dispatches `nav_left` on the change, and a
third repeated `nav_left` frame dispatches nothing. -/
theorem c1_edge_triggered_dispatch_witness :
    (handleGesture (runFrames (initSt 5) ([] ++ [fNone])) fNavLeft).2 = some Action.nav_left ∧
    (handleGesture (runFrames (initSt 5) ([fNone] ++ [fNavLeft])) fNavLeft).2 = Option.none := by
  constructor
  · have h := (c1_edge_triggered_dispatch (initSt 5) [] fNone fNavLeft).2.2.2.2 (by decide)
    simpa using h
  · exact (c1_edge_triggered_dispatch (initSt 5) [fNone] fNavLeft fNavLeft).2.1 rfl

/-- C2 counterexample.  The mutual-exclusion invariant fails: from a fresh
session with one item, the frame sequence "detail edge, then capture edge
with a successful capture response" reaches a state where `showDetail` and
`showQR` are both true (`showQR(...)` never clears `showDetail`). -/
theorem c2_overlay_mutex_counterexample :
    ¬ (∀ fs : List Frame,
        ¬((runFrames (initSt 1) fs).showDetail = true ∧
          (runFrames (initSt 1) fs).showQR = true)) :=
  fun h => h [fDetail, fCapture] (by decide)

/-- C2 amended.  A `detail` command arriving while the Capture/QR overlay
is active (on a frame that is not a fist) is refused and leaves both
overlay flags unchanged; but the flags are not mutually exclusive (see the
counterexample). -/
theorem c2_detail_refused_while_capture (s : St) (f : Frame)
    (hqr : s.showQR = true) (hact : f.action = Action.detail) (hfist : f.isFist = false) :
    ((handleGesture s f).1).showDetail = s.showDetail ∧
    ((handleGesture s f).1).showQR = true := by
  rw [handleGesture_fst]
  dsimp only
  rw [hfist]
  simp only [Bool.false_and, Bool.false_eq_true, if_false]
  split
  · unfold dispatchCommand
    rw [hact]
    dsimp only
    rw [if_neg (by simp [updateThemeMode_showQR, hqr])]
    dsimp only
    exact ⟨updateThemeMode_showDetail _ _ _ _, (updateThemeMode_showQR _ _ _ _).trans hqr⟩
  · exact ⟨updateThemeMode_showDetail _ _ _ _, (updateThemeMode_showQR _ _ _ _).trans hqr⟩

/-- Witness for the amended C2: with the QR overlay active and Detail
closed, a `detail` edge frame changes neither overlay flag. -/
theorem c2_detail_refused_while_capture_witness :
    ((handleGesture { initSt 1 with showQR := true } fDetail).1).showDetail = false ∧
    ((handleGesture { initSt 1 with showQR := true } fDetail).1).showQR = true := by
  have h := c2_detail_refused_while_capture { initSt 1 with showQR := true } fDetail rfl rfl rfl
  exact ⟨h.1.trans rfl, h.2⟩

/-- C3.  On every frame, after `handleGesture`, the stored light-mode flag
equals the effective light mode of `updateThemeMode`
(`src/unnamed/part_001`): `true` when the hand is detected, otherwise the
server hint while `timeUntilDark > 0`, otherwise `false`. -/
theorem c3_effective_light_mode (s : St) (f : Frame) :
    ((handleGesture s f).1).lightMode =
      (if f.handDetected then true
       else if 0 < f.timeUntilDark then f.lightModeHint else false) :=
  handleGesture_lightMode s f

/-- C5.  A fist frame arriving while the Detail overlay is open closes it
on that same frame, for every stored `lastAction` value and whether or not
the frame's `action` changed (the fist override runs after, and
independently of, the edge-gated dispatch). -/
theorem c5_fist_closes_detail (s : St) (f : Frame)
    (hfist : f.isFist = true) (_hdet : s.showDetail = true) :
    ((handleGesture s f).1).showDetail = false := by
  have key : ∀ t : St, (if f.isFist && t.showDetail then hideDetail t else t).showDetail = false := by
    intro t
    by_cases ht : t.showDetail
    · rw [if_pos (by simp [hfist, ht])]
      unfold hideDetail
      rw [if_pos ht]
    · rw [if_neg (by simp [ht])]
      simpa using ht
  rw [handleGesture_fst]
  dsimp only
  exact key _

/-- Witness for C5 (Scenario D): a fist frame with `action = none` arriving
with `lastAction = none` and the Detail overlay open closes the overlay. -/
theorem c5_fist_closes_detail_witness :
    ((handleGesture { initSt 1 with showDetail := true, lastAction := some Action.none }
        fFist).1).showDetail = false :=
  c5_fist_closes_detail _ fFist rfl rfl

/-! ### Navigation lemmas -/

lemma navigateTo_currentIndex (i : Int) (s : St) :
    (navigateTo i s).currentIndex = max 0 (min i ((s.itemCount : Int) - 1)) := rfl

lemma navigateRight_currentIndex (s : St) (h0 : 0 ≤ s.currentIndex) :
    (navigateRight s).currentIndex =
      (if s.currentIndex < (s.itemCount : Int) - 1 then s.currentIndex + 1
       else s.currentIndex) := by
  unfold navigateRight navigateTo
  dsimp only
  split <;> rename_i h
  · dsimp only
    omega
  · rfl

lemma navigateLeft_currentIndex (s : St) (h1 : s.currentIndex ≤ (s.itemCount : Int) - 1) :
    (navigateLeft s).currentIndex =
      (if 0 < s.currentIndex then s.currentIndex - 1 else s.currentIndex) := by
  unfold navigateLeft navigateTo
  dsimp only
  split <;> rename_i h
  · dsimp only
    omega
  · rfl

lemma fistStep_currentIndex (b : Bool) (t : St) :
    (if b && t.showDetail then hideDetail t else t).currentIndex = t.currentIndex := by
  split
  · exact hideDetail_currentIndex t
  · rfl

lemma fistStep_showQR (b : Bool) (t : St) :
    (if b && t.showDetail then hideDetail t else t).showQR = t.showQR := by
  split
  · exact hideDetail_showQR t
  · rfl

/-- C4.  The inverted mapping: with no overlay open, an edge-dispatched
`nav_left` command steps the index by `+1` (clamped at the last item) and
an edge-dispatched `nav_right` command steps it by `-1` (clamped at `0`);
and concretely, Scenario A: the frames `[none, nav_left, nav_left]` on
index `2` of `5` items with `lastAction` at its initial value perform
exactly one step — final index `3`, exactly one position-sync request
(for index `3`), and dispatch trace `[-, nav_left, -]`. -/
theorem c4_nav_inversion_scenarioA :
    (∀ (s : St) (f : Frame),
      s.showDetail = false → s.showQR = false →
      0 ≤ s.currentIndex → s.currentIndex ≤ (s.itemCount : Int) - 1 →
      s.lastAction ≠ some f.action →
      (f.action = Action.nav_left →
        ((handleGesture s f).1).currentIndex =
          (if s.currentIndex < (s.itemCount : Int) - 1 then s.currentIndex + 1
           else s.currentIndex)) ∧
      (f.action = Action.nav_right →
        ((handleGesture s f).1).currentIndex =
          (if 0 < s.currentIndex then s.currentIndex - 1 else s.currentIndex))) ∧
    ((runFrames { initSt 5 with currentIndex := 2 } [fNone, fNavLeft, fNavLeft]).currentIndex = 3 ∧
     (runFrames { initSt 5 with currentIndex := 2 } [fNone, fNavLeft, fNavLeft]).syncLog = [3] ∧
     dispatchTrace { initSt 5 with currentIndex := 2 } [fNone, fNavLeft, fNavLeft] =
       [Option.none, some Action.nav_left, Option.none]) := by
  constructor
  · intro s f hsd hsq h0 h1 hedge
    rw [handleGesture_fst]
    dsimp only
    have hed : some f.action ≠
        (updateThemeMode f.lightModeHint f.timeUntilDark f.handDetected s).lastAction := by
      rw [updateThemeMode_lastAction]
      exact fun h => hedge h.symm
    rw [if_pos hed]
    constructor
    · intro ha
      rw [fistStep_currentIndex]
      unfold dispatchCommand
      rw [ha]
      dsimp only
      rw [if_pos (by simp [updateThemeMode_showDetail, updateThemeMode_showQR, hsd, hsq])]
      have hci : ({ updateThemeMode f.lightModeHint f.timeUntilDark f.handDetected s with
          lastAction := some f.action } : St).currentIndex = s.currentIndex := by
        dsimp only
        exact updateThemeMode_currentIndex _ _ _ _
      have hic : (({ updateThemeMode f.lightModeHint f.timeUntilDark f.handDetected s with
          lastAction := some f.action } : St).itemCount : Int) = (s.itemCount : Int) := by
        dsimp only
        rw [updateThemeMode_itemCount]
      rw [navigateRight_currentIndex _ (by rw [hci]; exact h0), hci, hic]
    · intro ha
      rw [fistStep_currentIndex]
      unfold dispatchCommand
      rw [ha]
      dsimp only
      rw [if_pos (by simp [updateThemeMode_showDetail, updateThemeMode_showQR, hsd, hsq])]
      have hci : ({ updateThemeMode f.lightModeHint f.timeUntilDark f.handDetected s with
          lastAction := some f.action } : St).currentIndex = s.currentIndex := by
        dsimp only
        exact updateThemeMode_currentIndex _ _ _ _
      have hic : (({ updateThemeMode f.lightModeHint f.timeUntilDark f.handDetected s with
          lastAction := some f.action } : St).itemCount : Int) = (s.itemCount : Int) := by
        dsimp only
        rw [updateThemeMode_itemCount]
      rw [navigateLeft_currentIndex _ (by rw [hci, hic]; exact h1), hci]
  · exact ⟨by decide, by decide, by decide⟩

/-- Witness for C4: the general inverted-mapping statement applied to a
concrete state (index 1 of 3 items, no overlay, `lastAction = none`) with
a `nav_left` edge frame, yielding index 2. -/
theorem c4_nav_inversion_scenarioA_witness :
    ((handleGesture { initSt 3 with currentIndex := 1, lastAction := some Action.none }
        fNavLeft).1).currentIndex = 2 := by
  have h := (c4_nav_inversion_scenarioA.1
    { initSt 3 with currentIndex := 1, lastAction := some Action.none } fNavLeft
    rfl rfl (by decide) (by decide) (by decide)).1 rfl
  simpa using h

/-! ### Navigation bounds invariant -/

lemma applyNavOp_itemCount (s : St) (op : NavOp) :
    (applyNavOp s op).itemCount = s.itemCount := by
  cases op <;>
    simp only [applyNavOp, navigateTo, navigateLeft, navigateRight] <;>
    (repeat' split) <;> rfl

lemma applyNavOp_bounds (s : St) (op : NavOp)
    (h0 : 0 ≤ s.currentIndex)
    (h1 : s.currentIndex ≤ max 0 ((s.itemCount : Int) - 1)) :
    0 ≤ (applyNavOp s op).currentIndex ∧
      (applyNavOp s op).currentIndex ≤ max 0 (((applyNavOp s op).itemCount : Int) - 1) := by
  rw [applyNavOp_itemCount]
  cases op with
  | goto i =>
    simp only [applyNavOp, navigateTo]
    try dsimp only
    omega
  | left =>
    simp only [applyNavOp, navigateLeft, navigateTo]
    split
    · try dsimp only
      omega
    · exact ⟨h0, h1⟩
  | right =>
    simp only [applyNavOp, navigateRight, navigateTo]
    split
    · try dsimp only
      omega
    · exact ⟨h0, h1⟩

lemma applyNavOps_bounds (ops : List NavOp) (s : St)
    (h0 : 0 ≤ s.currentIndex)
    (h1 : s.currentIndex ≤ max 0 ((s.itemCount : Int) - 1)) :
    0 ≤ (applyNavOps s ops).currentIndex ∧
      (applyNavOps s ops).currentIndex ≤ max 0 (((applyNavOps s ops).itemCount : Int) - 1) := by
  induction ops generalizing s with
  | nil => exact ⟨h0, h1⟩
  | cons op ops ih =>
    have h := applyNavOp_bounds s op h0 h1
    exact ih (applyNavOp s op) h.1 h.2

lemma applyNavOps_itemCount (ops : List NavOp) (s : St) :
    (applyNavOps s ops).itemCount = s.itemCount := by
  induction ops generalizing s with
  | nil => rfl
  | cons op ops ih => exact (ih (applyNavOp s op)).trans (applyNavOp_itemCount s op)

/-- C6.  From session start with `n` items, every sequence of navigation
operations (jumps with arbitrary, possibly out-of-range indices, plus
single steps) keeps `currentIndex` in `[0, n-1]` when `n > 0` and at `0`
when `n = 0`; and each `navigateTo` clamps its target index into that
range. -/
theorem c6_navigation_bounds (n : Nat) (ops : List NavOp) :
    ((0 < n →
        0 ≤ (applyNavOps (initSt n) ops).currentIndex ∧
        (applyNavOps (initSt n) ops).currentIndex ≤ (n : Int) - 1) ∧
     (n = 0 → (applyNavOps (initSt n) ops).currentIndex = 0)) ∧
    ∀ (s : St) (i : Int),
      (navigateTo i s).currentIndex = max 0 (min i ((s.itemCount : Int) - 1)) := by
  have hb := applyNavOps_bounds ops (initSt n) (le_refl 0) (le_max_left 0 _)
  rw [applyNavOps_itemCount] at hb
  have hic : (initSt n).itemCount = n := rfl
  rw [hic] at hb
  obtain ⟨hb1, hb2⟩ := hb
  refine ⟨⟨fun hn => ⟨hb1, ?_⟩, fun hn => ?_⟩, fun s i => navigateTo_currentIndex i s⟩
  · omega
  · omega

/-- Witness for C6: a sequence with an out-of-range jump, steps, and a
negative jump on three items stays within `[0, 2]`; on zero items the
index stays `0`. -/
theorem c6_navigation_bounds_witness :
    (0 ≤ (applyNavOps (initSt 3)
            [NavOp.goto 99, NavOp.right, NavOp.goto (-7), NavOp.left]).currentIndex ∧
     (applyNavOps (initSt 3)
            [NavOp.goto 99, NavOp.right, NavOp.goto (-7), NavOp.left]).currentIndex ≤
       (3 : Int) - 1) ∧
    (applyNavOps (initSt 0) [NavOp.goto 9, NavOp.right]).currentIndex = 0 :=
  ⟨(c6_navigation_bounds 3 [NavOp.goto 99, NavOp.right, NavOp.goto (-7), NavOp.left]).1.1
      (by decide),
   (c6_navigation_bounds 0 [NavOp.goto 9, NavOp.right]).1.2 rfl⟩

/-- C10.  Boundary single-steps are complete no-ops with no position-sync
request: `navigateLeft` at index `0`, and `navigateRight` at the last
index or with zero items, leave the whole state (including the sync log)
unchanged; whereas `navigateTo` always appends exactly one position-sync
request, even when the clamped target equals the current index. -/
theorem c10_boundary_noop_sync (s : St) (i : Int) :
    (s.currentIndex = 0 → navigateLeft s = s) ∧
    (s.currentIndex = (s.itemCount : Int) - 1 → navigateRight s = s) ∧
    (s.itemCount = 0 → 0 ≤ s.currentIndex → navigateRight s = s) ∧
    (navigateTo i s).syncLog = max 0 (min i ((s.itemCount : Int) - 1)) :: s.syncLog := by
  refine ⟨?_, ?_, ?_, rfl⟩
  · intro h
    unfold navigateLeft
    rw [if_neg (by omega)]
  · intro h
    unfold navigateRight
    rw [if_neg (by omega)]
  · intro h h0
    unfold navigateRight
    rw [if_neg (by omega)]

/-- Witness for C10: on five items, `navigateLeft` at index `0` and
`navigateRight` at index `4` change nothing and issue no sync; with zero
items `navigateRight` is a no-op; and `navigateTo 2` from index `2` still
issues one sync request for index `2`. -/
theorem c10_boundary_noop_sync_witness :
    navigateLeft (initSt 5) = initSt 5 ∧
    navigateRight { initSt 5 with currentIndex := 4 } = { initSt 5 with currentIndex := 4 } ∧
    navigateRight (initSt 0) = initSt 0 ∧
    (navigateTo 2 { initSt 5 with currentIndex := 2 }).syncLog = [2] := by
  refine ⟨(c10_boundary_noop_sync (initSt 5) 0).1 rfl,
          (c10_boundary_noop_sync { initSt 5 with currentIndex := 4 } 0).2.1 (by decide),
          (c10_boundary_noop_sync (initSt 0) 0).2.2.1 rfl (by decide), ?_⟩
  have h := (c10_boundary_noop_sync { initSt 5 with currentIndex := 2 } 2).2.2.2
  exact h.trans (by decide)

/-! ### QR countdown timer -/

/-- Invariant tying `state.qrInterval` to the runtime's registered
interval timers: the stored id is registered, and no stale timer survives. -/
def QrInv (s : QrSt) : Prop :=
  match s.qrInterval with
  | some i => s.activeTimers = [i]
  | Option.none => s.activeTimers = []

lemma qrHide_activeTimers (s : QrSt) (h : QrInv s) :
    (qrHide s).activeTimers = [] ∧ (qrHide s).qrInterval = Option.none := by
  unfold QrInv at h
  unfold qrHide
  dsimp only
  cases hqi : s.qrInterval with
  | none =>
    simp only [hqi] at h
    exact ⟨h, rfl⟩
  | some i =>
    simp only [hqi] at h
    rw [h]
    simp

lemma qrHide_inv (s : QrSt) (h : QrInv s) : QrInv (qrHide s) := by
  unfold QrInv
  rw [(qrHide_activeTimers s h).2]
  exact (qrHide_activeTimers s h).1

lemma applyQrOp_inv (s : QrSt) (op : QrOp) (h : QrInv s) : QrInv (applyQrOp s op) := by
  cases op with
  | hideQR => exact qrHide_inv s h
  | showQR =>
    show QrInv (qrShow s)
    unfold QrInv at h ⊢
    unfold qrShow
    dsimp only
    cases hqi : s.qrInterval with
    | none =>
      simp only [hqi] at h
      rw [h]
    | some i =>
      simp only [hqi] at h
      rw [h]
      simp
  | tick i =>
    show QrInv (qrTick i s)
    unfold qrTick
    dsimp only
    split
    · split
      · exact qrHide_inv _ h
      · exact h
    · exact h

lemma qrRun_inv (ops : List QrOp) (s : QrSt) (h : QrInv s) : QrInv (qrRun s ops) := by
  induction ops generalizing s with
  | nil => exact h
  | cons op ops ih => exact ih (applyQrOp s op) (applyQrOp_inv s op h)

lemma qrTick_noop (i : Nat) (s : QrSt) (h : s.activeTimers = []) : qrTick i s = s := by
  unfold qrTick
  rw [if_neg (by simp [h])]

lemma qrRun_ticks_noop (ids : List Nat) (s : QrSt) (h : s.activeTimers = []) :
    qrRun s (ids.map QrOp.tick) = s := by
  induction ids with
  | nil => rfl
  | cons i ids ih =>
    show qrRun (applyQrOp s (QrOp.tick i)) (ids.map QrOp.tick) = s
    have : applyQrOp s (QrOp.tick i) = s := qrTick_noop i s h
    rw [this]
    exact ih

lemma qrRun_append (s : QrSt) (l1 l2 : List QrOp) :
    qrRun s (l1 ++ l2) = qrRun (qrRun s l1) l2 :=
  List.foldl_append _ _ _ _

/-- C7.  Opening the QR overlay sets the countdown to `10` and at most one
countdown timer is ever registered (a new `showQR` first clears the
previous one); and closing the overlay by any path other than expiry
cancels the repeating timer, so after a `hideQR` no interval callback
(however many are attempted, with any ids) changes the state — no
automatic close ever fires afterwards. -/
theorem c7_qr_countdown_cancel (ops : List QrOp) (ids : List Nat) :
    (qrRun qrInit ops).activeTimers.length ≤ 1 ∧
    (qrShow (qrRun qrInit ops)).qrCountdown = QR_DISPLAY_TIME ∧
    qrRun qrInit (ops ++ QrOp.hideQR :: ids.map QrOp.tick) =
      qrRun qrInit (ops ++ [QrOp.hideQR]) := by
  have hinv : QrInv (qrRun qrInit ops) := qrRun_inv ops qrInit rfl
  refine ⟨?_, ?_, ?_⟩
  · unfold QrInv at hinv
    cases hqi : (qrRun qrInit ops).qrInterval with
    | none => rw [hqi] at hinv; rw [hinv]; simp
    | some i => rw [hqi] at hinv; dsimp only at hinv; rw [hinv]; simp
  · unfold qrShow
    dsimp only
    (repeat' split) <;> rfl
  · have hsplit : ops ++ QrOp.hideQR :: ids.map QrOp.tick =
        (ops ++ [QrOp.hideQR]) ++ ids.map QrOp.tick := by
      simp
    rw [hsplit, qrRun_append]
    apply qrRun_ticks_noop
    have hhide : qrRun qrInit (ops ++ [QrOp.hideQR]) = qrHide (qrRun qrInit ops) := by
      rw [qrRun_append]
      rfl
    rw [hhide]
    exact (qrHide_activeTimers _ hinv).1

/-! ### Dual transport -/

lemma tpStep_respond_reqLog (s : TpSt) (ok : Bool) :
    (tpStep s (TpEv.respond ok)).reqLog = s.reqLog := by
  unfold tpStep
  dsimp only
  (repeat' split) <;> rfl

lemma tpStep_reqLog_false (s : TpSt) (e : TpEv) (h : ∀ b ∈ s.reqLog, b = false) :
    ∀ b ∈ (tpStep s e).reqLog, b = false := by
  cases e with
  | connect => exact h
  | disconnect =>
    unfold tpStep startPollingFallback pollBody
    dsimp only
    intro b hb
    rcases List.mem_cons.mp hb with rfl | hb
    · rfl
    · exact h b hb
  | tickFire =>
    unfold tpStep
    dsimp only
    split
    · unfold pollBody
      dsimp only
      split
      · exact h
      · rename_i hw
        rw [Bool.not_eq_true] at hw
        intro b hb
        rcases List.mem_cons.mp hb with rfl | hb
        · exact hw
        · exact h b hb
    · exact h
  | respond ok =>
    rw [tpStep_respond_reqLog]
    exact h

lemma tpRun_reqLog_false (evs : List TpEv) (s : TpSt) (h : ∀ b ∈ s.reqLog, b = false) :
    ∀ b ∈ (tpRun s evs).reqLog, b = false := by
  induction evs generalizing s with
  | nil => exact h
  | cons e evs ih => exact ih (tpStep s e) (tpStep_reqLog_false s e h)

lemma tpStep_ws_preserved (s : TpSt) (e : TpEv)
    (hw : s.useWebSocket = true) (hne : e ≠ TpEv.disconnect) :
    (tpStep s e).useWebSocket = true ∧ (tpStep s e).reqLog = s.reqLog := by
  cases e with
  | connect => exact ⟨rfl, rfl⟩
  | disconnect => exact absurd rfl hne
  | tickFire =>
    unfold tpStep
    dsimp only
    split
    · unfold pollBody
      dsimp only
      rw [if_pos hw]
      exact ⟨hw, rfl⟩
    · exact ⟨hw, rfl⟩
  | respond ok =>
    unfold tpStep
    dsimp only
    (repeat' split) <;> simp_all

lemma tpRun_ws_reqLog (more : List TpEv) (s : TpSt)
    (hw : s.useWebSocket = true) (hne : ∀ e ∈ more, e ≠ TpEv.disconnect) :
    (tpRun s more).reqLog = s.reqLog := by
  induction more generalizing s with
  | nil => rfl
  | cons e more ih =>
    have hstep := tpStep_ws_preserved s e hw (hne e (List.mem_cons_self e more))
    have hrest := ih (tpStep s e) hstep.1 (fun x hx => hne x (List.mem_cons_of_mem e hx))
    show (tpRun (tpStep s e) more).reqLog = s.reqLog
    rw [hrest, hstep.2]

/-- C8.  Every poll request is issued while `useWebSocket` is false (the
poll loop checks the flag both on entry, before the `fetch`, and before
each `setTimeout` reschedule); and once the push channel has reconnected
(`useWebSocket = true`), any sequence of events that contains no
disconnect issues no further poll request. -/
theorem c8_no_poll_after_reconnect (evs : List TpEv) :
    (∀ b ∈ (tpRun tpInit evs).reqLog, b = false) ∧
    (∀ (s : TpSt) (more : List TpEv), s.useWebSocket = true →
      (∀ e ∈ more, e ≠ TpEv.disconnect) → (tpRun s more).reqLog = s.reqLog) := by
  constructor
  · exact tpRun_reqLog_false evs tpInit (by intro b hb; cases hb)
  · intro s more hw hne
    exact tpRun_ws_reqLog more s hw hne

/-- Witness for C8: after a disconnect, the one issued poll request was
issued with the flag false; and from a reconnected state with a pending
tick and an in-flight request, firing the tick and delivering the
response issues no request. -/
theorem c8_no_poll_after_reconnect_witness :
    (tpRun tpInit [TpEv.disconnect]).reqLog = [false] ∧
    (tpRun { tpInit with useWebSocket := true, tickPending := 1, inflight := 1 }
        [TpEv.tickFire, TpEv.respond true]).reqLog = [] := by
  constructor
  · have hx := (c8_no_poll_after_reconnect [TpEv.disconnect]).1
      ((tpRun tpInit [TpEv.disconnect]).reqLog.headI) (by decide)
    have hl : (tpRun tpInit [TpEv.disconnect]).reqLog =
        [(tpRun tpInit [TpEv.disconnect]).reqLog.headI] := by decide
    rw [hl, hx]
  · exact (c8_no_poll_after_reconnect []).2 _ [TpEv.tickFire, TpEv.respond true] rfl (by decide)

/-- C9 counterexample.  The claim that no poll request pending at failover
ever delivers its frame to `handleGesture` after the failover is false:
issue a poll (disconnect), reconnect while it is in flight, then let the
response arrive — the frame is delivered with `useWebSocket = true`. -/
theorem c9_pending_poll_counterexample :
    ¬ (∀ evs : List TpEv, ∀ b ∈ (tpRun tpInit evs).delLog, b = false) :=
  fun h =>
    absurd (h [TpEv.disconnect, TpEv.connect, TpEv.respond true] true (by decide)) (by decide)

/-- C9 amended.  A poll request in flight at failover is not cancelled:
when its response arrives after push has reconnected, its frame is still
delivered to `handleGesture` (logged with the flag true); the switch only
prevents a new tick from being scheduled. -/
theorem c9_inflight_poll_delivers (s : TpSt)
    (h1 : 0 < s.inflight) (hw : s.useWebSocket = true) :
    (tpStep s (TpEv.respond true)).delLog = true :: s.delLog ∧
    (tpStep s (TpEv.respond true)).tickPending = s.tickPending := by
  unfold tpStep
  dsimp only
  rw [if_pos h1]
  simp [hw]

/-- Witness for the amended C9: with one request in flight and the push
channel reconnected, the response is still delivered (flag true) and no
tick is scheduled. -/
theorem c9_inflight_poll_delivers_witness :
    (tpStep { tpInit with useWebSocket := true, inflight := 1 }
        (TpEv.respond true)).delLog = [true] ∧
    (tpStep { tpInit with useWebSocket := true, inflight := 1 }
        (TpEv.respond true)).tickPending = 0 :=
  c9_inflight_poll_delivers { tpInit with useWebSocket := true, inflight := 1 }
    (by decide) rfl

end Vitrine
